import Mathlib

/-!
Shallow embedding of the rpos-system marketplace server (src/db.js and
src/server.js): the persistence layer (products and transactions over
SQLite), the request-identity resolver, and the HTTP route handlers that
the specification's claims are about.

Modelling conventions:
* JavaScript nullable strings are `Option String`; `none` stands for both
  `null` and `undefined`.  JS truthiness of such a value (`if (x)`,
  `x || y`) is `strTruthy`: `none` and `some ""` are falsy.
* Numbers that the code only ever uses as integers (prices, quantities,
  ids, stock) are `Int`; `x || d` on them is `intOrElse`, where `0` is
  falsy as in JS.
* `String(x)` applied to a nullable string is `jsString`: `String(null)`
  is the four-character string "null".
* The SQLite database is a pure value `DB`; `db.run`/`db.all` callbacks
  surface as `Except DbErr` where the source can reject, and SQL row
  filtering/sorting is modelled directly on the stored lists.
* `JSON.stringify`/`JSON.parse` on the `items` and `location` columns are
  modelled by the concrete serializers `stringifyItems`/`stringifyGeo`
  and the executable parsers `parseItems`/`parseGeo` (one canonical field
  order is fixed for objects).
* The uploads directory is a list of file names inside `World`; the
  best-effort `fs.unlinkSync` guarded by `fs.existsSync` is a filter.
-/

namespace RPos

/-- JS truthiness of a nullable string: `null`, `undefined` and `""` are
falsy, every other string is truthy. -/
def strTruthy : Option String → Bool
  | none => false
  | some s => s != ""

/-- JS `a || b` for nullable strings (used by the identity resolver chains). -/
def strOrElse (a b : Option String) : Option String :=
  if strTruthy a then a else b

/-- JS `a || d` for a nullable string against a concrete default string
(`paymentMethod || 'CASH'`, `timestamp || now`). -/
def strOrDefault (a : Option String) (d : String) : String :=
  match a with
  | none => d
  | some s => if s = "" then d else s

/-- JS `a || null` for a nullable string (`req.body.proofFilename || null`):
falsy values collapse to `none`. -/
def normalizeStr (a : Option String) : Option String :=
  if strTruthy a then a else none

/-- JS `a || d` for a nullable integer: `null`, `undefined` and `0` are
falsy (`item.qty || 1`, `row.maxId || 0`). -/
def intOrElse : Option Int → Int → Int
  | none, d => d
  | some v, d => if v = 0 then d else v

/-- JS `String(x)` on a nullable string: `String(null) = "null"`. -/
def jsString : Option String → String
  | none => "null"
  | some s => s

/-- A row of the `products` table (db.js, CREATE TABLE products). -/
structure Product where
  id : String
  title : String
  description : String
  price : String
  stock : Int
  image : Option String
  owner : Option String
deriving Repr, DecidableEq

/-- A line item of a transaction request body: `price` and `qty` are each
independently optional in the incoming JSON. -/
structure Item where
  price : Option Int
  qty : Option Int
deriving Repr, DecidableEq

/-- A structured geolocation payload (`location` field of a transaction). -/
structure GeoPoint where
  lat : Int
  lng : Int
deriving Repr, DecidableEq

/-- A row of the `transactions` table as stored: `items` and `location`
are serialized text, `proofUploaded` is a 0/1 integer flag. -/
structure TxnRow where
  id : Int
  owner : Option String
  items : String
  total : Int
  itemCount : Int
  paymentMethod : String
  proofUploaded : Int
  proofFilename : Option String
  location : Option String
  timestamp : String
  date : String
deriving Repr, DecidableEq

/-- A transaction as returned by `getAllTransactions`: `items` and
`location` deserialized back to structured values, `proofUploaded` a
boolean. -/
structure Txn where
  id : Int
  owner : Option String
  items : List Item
  total : Int
  itemCount : Int
  paymentMethod : String
  proofUploaded : Bool
  proofFilename : Option String
  location : Option GeoPoint
  timestamp : String
  date : String
deriving Repr, DecidableEq

/-- Structured transaction data handed to `createTransaction` by the
POST /transactions handler, before serialization. -/
structure TxnData where
  id : Int
  owner : Option String
  items : List Item
  total : Int
  itemCount : Int
  paymentMethod : String
  proofUploaded : Bool
  proofFilename : Option String
  location : Option GeoPoint
  timestamp : String
  date : String
deriving Repr, DecidableEq

/-- The SQLite database contents relevant to the claims. -/
structure DB where
  products : List Product
  transactions : List TxnRow
deriving Repr, DecidableEq

/-- The ways a `db.run`/`db.all` call can reject: a SQL constraint
violation (duplicate primary key) or an environmental SQL failure. -/
inductive DbErr where
  | constraintViolation
  | sqlFailure
deriving Repr, DecidableEq

/-- Server-side world state: the database plus the uploads directory. -/
structure World where
  db : DB
  files : List String
deriving Repr, DecidableEq

/- ### Serialization of `items` and `location` (JSON.stringify / JSON.parse) -/

/-- The character `\x7b` (opening curly brace). -/
def braceOpen : Char := Char.ofNat 123

/-- The character `\x7d` (closing curly brace). -/
def braceClose : Char := Char.ofNat 125

/-- `JSON.stringify` of one line item, with the canonical field order
price-then-qty; absent fields are omitted as for `undefined` in JS. -/
def stringifyItem (i : Item) : String :=
  match i.price, i.qty with
  | none, none => "\x7b\x7d"
  | some p, none => "\x7b\"price\":" ++ toString p ++ "\x7d"
  | none, some q => "\x7b\"qty\":" ++ toString q ++ "\x7d"
  | some p, some q =>
      "\x7b\"price\":" ++ toString p ++ ",\"qty\":" ++ toString q ++ "\x7d"

/-- `JSON.stringify` of the items array. -/
def stringifyItems (l : List Item) : String :=
  "[" ++ String.intercalate "," (l.map stringifyItem) ++ "]"

/-- `JSON.stringify` of a location object. -/
def stringifyGeo (g : GeoPoint) : String :=
  "\x7b\"lat\":" ++ toString g.lat ++ ",\"lng\":" ++ toString g.lng ++ "\x7d"

/-- Consume one expected character. -/
def expectChar (c : Char) : List Char → Option (List Char)
  | [] => none
  | x :: xs => if x = c then some xs else none

/-- Consume an expected literal character sequence. -/
def expectLit : List Char → List Char → Option (List Char)
  | [], cs => some cs
  | _ :: _, [] => none
  | l :: ls, c :: cs => if c = l then expectLit ls cs else none

/-- Split a leading run of decimal digits off a character list. -/
def takeDigits : List Char → List Char × List Char
  | [] => ([], [])
  | c :: cs =>
      if c.isDigit then
        let r := takeDigits cs
        (c :: r.1, r.2)
      else ([], c :: cs)

/-- Numeric value of a digit run. -/
def digitsToNat (ds : List Char) : Nat :=
  ds.foldl (fun a c => a * 10 + (c.toNat - 48)) 0

/-- Parse a (possibly negative) JSON integer token. -/
def parseIntTok (cs : List Char) : Option (Int × List Char) :=
  match cs with
  | '-' :: rest =>
      match takeDigits rest with
      | ([], _) => none
      | (ds, rem) => some (-(digitsToNat ds : Int), rem)
  | _ =>
      match takeDigits cs with
      | ([], _) => none
      | (ds, rem) => some ((digitsToNat ds : Int), rem)

/-- Parse one serialized line item object. -/
def parseItemTok (cs : List Char) : Option (Item × List Char) :=
  match expectChar braceOpen cs with
  | none => none
  | some cs0 =>
    match cs0 with
    | [] => none
    | c :: rest =>
      if c = braceClose then some (⟨none, none⟩, rest)
      else
        match expectLit "\"price\":".data cs0 with
        | some cs1 =>
          match parseIntTok cs1 with
          | none => none
          | some (p, cs2) =>
            match cs2 with
            | [] => none
            | c2 :: cs3 =>
              if c2 = braceClose then some (⟨some p, none⟩, cs3)
              else if c2 = ',' then
                match expectLit "\"qty\":".data cs3 with
                | none => none
                | some cs4 =>
                  match parseIntTok cs4 with
                  | none => none
                  | some (q, cs5) =>
                    (expectChar braceClose cs5).map (fun r => (⟨some p, some q⟩, r))
              else none
        | none =>
          match expectLit "\"qty\":".data cs0 with
          | none => none
          | some cs1 =>
            match parseIntTok cs1 with
            | none => none
            | some (q, cs2) =>
              (expectChar braceClose cs2).map (fun r => (⟨none, some q⟩, r))

/-- Parse a comma-separated run of items terminated by a closing bracket
at end of input; the fuel argument bounds recursion by the input length. -/
def parseItemsAux : Nat → List Char → Option (List Item)
  | 0, _ => none
  | fuel + 1, cs =>
    match parseItemTok cs with
    | none => none
    | some (i, rest) =>
      match rest with
      | [']'] => some [i]
      | ',' :: rest2 => (parseItemsAux fuel rest2).map (fun l => i :: l)
      | _ => none

/-- `JSON.parse` of a serialized items array. -/
def parseItems (s : String) : Option (List Item) :=
  match s.data with
  | '[' :: rest =>
    match rest with
    | [']'] => some []
    | _ => parseItemsAux (rest.length + 1) rest
  | _ => none

/-- `JSON.parse` of a serialized location object. -/
def parseGeo (s : String) : Option GeoPoint :=
  match expectChar braceOpen s.data with
  | none => none
  | some cs0 =>
    match expectLit "\"lat\":".data cs0 with
    | none => none
    | some cs1 =>
      match parseIntTok cs1 with
      | none => none
      | some (la, cs2) =>
        match expectLit ",\"lng\":".data cs2 with
        | none => none
        | some cs3 =>
          match parseIntTok cs3 with
          | none => none
          | some (ln, cs4) =>
            match expectChar braceClose cs4 with
            | some [] => some ⟨la, ln⟩
            | _ => none

/- ### Store operations (db.js) -/

/-- db.js `getAllProducts(owner)`: `if (owner)` adds `WHERE owner = ?`
(truthiness, so an empty-string filter adds no WHERE clause); the SQL
equality is exact and excludes NULL owners. -/
def getAllProducts (owner : Option String) (db : DB) : List Product :=
  match owner with
  | none => db.products
  | some s =>
      if s = "" then db.products
      else db.products.filter (fun p => p.owner == some s)

/-- db.js `getProductById(id)`: `SELECT * FROM products WHERE id = ?`. -/
def getProductById (id : String) (db : DB) : Option Product :=
  db.products.find? (fun p => p.id == id)

/-- db.js `createProduct(...)`: INSERT, rejecting on a duplicate primary
key. -/
def createProduct (id title description price : String) (stock : Int)
    (image owner : Option String) (db : DB) : Except DbErr DB :=
  if db.products.any (fun q => q.id == id) then .error .constraintViolation
  else .ok ⟨db.products ++ [⟨id, title, description, price, stock, image, owner⟩],
            db.transactions⟩

/-- db.js `updateProduct(id, title, description, price, stock, image)`:
`UPDATE products SET ... WHERE id = ?`.  A non-matching id updates zero
rows and still resolves successfully; `owner` is not in the SET list. -/
def updateProduct (id title description price : String) (stock : Int)
    (image : Option String) (db : DB) : Except DbErr DB :=
  .ok ⟨db.products.map (fun p =>
          if p.id == id then ⟨p.id, title, description, price, stock, image, p.owner⟩
          else p),
       db.transactions⟩

/-- db.js `deleteProduct(id)`: `DELETE FROM products WHERE id = ?`.  A
non-matching id deletes zero rows and still resolves successfully. -/
def deleteProduct (id : String) (db : DB) : Except DbErr DB :=
  .ok ⟨db.products.filter (fun p => p.id != id), db.transactions⟩

/-- The `WHERE owner = ?` filter of db.js `getAllTransactions`, with the
same `if (owner)` truthiness guard as for products. -/
def txnRowsFor (owner : Option String) (rows : List TxnRow) : List TxnRow :=
  match owner with
  | none => rows
  | some s =>
      if s = "" then rows
      else rows.filter (fun r => r.owner == some s)

/-- Insert one row into a list sorted by id descending. -/
def insertByIdDesc (r : TxnRow) : List TxnRow → List TxnRow
  | [] => [r]
  | x :: xs => if x.id ≤ r.id then r :: x :: xs else x :: insertByIdDesc r xs

/-- `ORDER BY id DESC`. -/
def sortByIdDesc (l : List TxnRow) : List TxnRow :=
  l.foldr insertByIdDesc []

/-- Deserialize one stored row back to a structured transaction, as the
`rows.map` in db.js `getAllTransactions` does: `JSON.parse(row.items)`,
`row.location ? JSON.parse(row.location) : null`,
`Boolean(row.proofUploaded)`.  `none` is a parse exception. -/
def parseTxnRow (r : TxnRow) : Option Txn :=
  match parseItems r.items with
  | none => none
  | some its =>
    match r.location with
    | none =>
        some ⟨r.id, r.owner, its, r.total, r.itemCount, r.paymentMethod,
              r.proofUploaded != 0, r.proofFilename, none, r.timestamp, r.date⟩
    | some s =>
      if s = "" then
        some ⟨r.id, r.owner, its, r.total, r.itemCount, r.paymentMethod,
              r.proofUploaded != 0, r.proofFilename, none, r.timestamp, r.date⟩
      else
        match parseGeo s with
        | none => none
        | some g =>
            some ⟨r.id, r.owner, its, r.total, r.itemCount, r.paymentMethod,
                  r.proofUploaded != 0, r.proofFilename, some g, r.timestamp, r.date⟩

/-- Failure-propagating map, as a thrown exception inside the JS
`rows.map` aborts the whole mapping. -/
def optionMapM (f : α → Option β) : List α → Option (List β)
  | [] => some []
  | x :: xs =>
    match f x, optionMapM f xs with
    | some y, some ys => some (y :: ys)
    | _, _ => none

/-- db.js `getAllTransactions(owner)`: optional exact owner filter,
`ORDER BY id DESC`, then per-row deserialization. -/
def getAllTransactions (owner : Option String) (db : DB) : Option (List Txn) :=
  optionMapM parseTxnRow (sortByIdDesc (txnRowsFor owner db.transactions))

/-- `SELECT MAX(id) as maxId FROM transactions`: NULL on an empty table. -/
def maxTxnId : List TxnRow → Option Int
  | [] => none
  | r :: rs =>
    match maxTxnId rs with
    | none => some r.id
    | some m => some (max r.id m)

/-- db.js `getNextTransactionId`: `(row.maxId || 0) + 1`. -/
def getNextTransactionId (db : DB) : Int :=
  intOrElse (maxTxnId db.transactions) 0 + 1

/-- db.js `createTransaction(transactionData)`: serializes `items`,
serializes `location` when truthy, stores `proofUploaded ? 1 : 0`, and
INSERTs, rejecting on a duplicate primary key. -/
def createTransaction (t : TxnData) (db : DB) : Except DbErr DB :=
  let row : TxnRow :=
    ⟨t.id, t.owner, stringifyItems t.items, t.total, t.itemCount,
     t.paymentMethod, if t.proofUploaded then 1 else 0, t.proofFilename,
     t.location.map stringifyGeo, t.timestamp, t.date⟩
  if db.transactions.any (fun r => r.id == t.id) then .error .constraintViolation
  else .ok ⟨db.products, db.transactions ++ [row]⟩

/- ### Request-identity resolution (server.js) -/

/-- The identity-bearing parts of a request: the `username` query
parameter, the `x-username` header, and the parsed `username` cookie. -/
structure Req where
  queryUsername : Option String
  headerUsername : Option String
  cookieUsername : Option String
deriving Repr, DecidableEq

/-- The resolver the spec describes once:
`fromQuery || fromHeader || fromCookie || null` (JS truthiness). -/
def resolveUsername (q h c : Option String) : Option String :=
  strOrElse q (strOrElse h (strOrElse c none))

/-- Route 3 GET /products, lines 106-110: its inline identity chain. -/
def productsListIdent (r : Req) : Option String :=
  strOrElse r.queryUsername (strOrElse r.headerUsername (strOrElse r.cookieUsername none))

/-- Route 4 POST /products, line 127: its inline identity chain. -/
def productCreateIdent (r : Req) : Option String :=
  strOrElse r.queryUsername (strOrElse r.headerUsername (strOrElse r.cookieUsername none))

/-- Route 10 DELETE /products/:id, line 252: its inline identity chain. -/
def productDeleteIdent (r : Req) : Option String :=
  strOrElse r.queryUsername (strOrElse r.headerUsername (strOrElse r.cookieUsername none))

/-- Route 11 GET /transactions, lines 277-281: its inline identity chain. -/
def txnListIdent (r : Req) : Option String :=
  strOrElse r.queryUsername (strOrElse r.headerUsername (strOrElse r.cookieUsername none))

/-- Route 13 POST /transactions, line 318: its inline identity chain. -/
def txnCreateIdent (r : Req) : Option String :=
  strOrElse r.queryUsername (strOrElse r.headerUsername (strOrElse r.cookieUsername none))

/- ### HTTP route handlers (server.js) -/

/-- Route 3 GET /products: resolve identity, list. -/
def getProductsRoute (req : Req) (w : World) : Nat × List Product :=
  (200, getAllProducts (productsListIdent req) w.db)

/-- Route 11 GET /transactions: resolve identity, list.  `none` models a
deserialization exception thrown inside the store callback, on which no
normal JSON response is produced. -/
def getTransactionsRoute (req : Req) (w : World) : Option (Nat × List Txn) :=
  (getAllTransactions (txnListIdent req) w.db).map (fun l => (200, l))

/-- The best-effort image unlink shared by the delete and update routes:
`if (product.image) { if (fs.existsSync(p)) fs.unlinkSync(p) }`, errors
swallowed. -/
def removeImage (image : Option String) (files : List String) : List String :=
  match image with
  | some img => if img != "" then files.filter (fun f => f != img) else files
  | none => files

/-- Route 10 DELETE /products/:id: 404 when absent; 403 when
`product.owner && String(product.owner) !== String(ownerCandidate)`;
otherwise best-effort image unlink, then store delete, then
`{ok:true}`. -/
def deleteProductRoute (req : Req) (id : String) (w : World) : Nat × World :=
  match getProductById id w.db with
  | none => (404, w)
  | some product =>
    let ownerCandidate := productDeleteIdent req
    if strTruthy product.owner && (jsString product.owner != jsString ownerCandidate) then
      (403, w)
    else
      match deleteProduct id w.db with
      | .ok db1 => (200, ⟨db1, removeImage product.image w.files⟩)
      | .error _ => (500, ⟨w.db, removeImage product.image w.files⟩)

/-- Body of a product-update request: each field is independently
optional (`undefined` when absent); `file` is a freshly stored upload
name when a new image was posted. -/
structure UpdateReq where
  title : Option String
  description : Option String
  price : Option String
  stock : Option Int
  file : Option String
deriving Repr, DecidableEq

/-- Route 5 POST /products/:id: 404 when absent; on a new upload the old
image file is removed best-effort; every body field falls back to the
previously stored value via `x !== undefined ? x : product.x`; then
store update and a redirect. -/
def updateProductRoute (req : UpdateReq) (id : String) (w : World) : Nat × World :=
  match getProductById id w.db with
  | none => (404, w)
  | some product =>
    let files1 :=
      match req.file with
      | some _ => removeImage product.image w.files
      | none => w.files
    let newImage :=
      match req.file with
      | some f => some f
      | none => product.image
    match updateProduct id (req.title.getD product.title)
        (req.description.getD product.description)
        (req.price.getD product.price)
        (req.stock.getD product.stock) newImage w.db with
    | .ok db1 => (302, ⟨db1, files1⟩)
    | .error _ => (500, ⟨w.db, files1⟩)

/-- Body of a POST /transactions request.  `proofUploaded` carries the
JS truthiness of the raw field (the handler applies `!!`). -/
structure TxnBody where
  items : Option (List Item)
  paymentMethod : Option String
  proofUploaded : Bool
  proofFilename : Option String
  location : Option GeoPoint
  timestamp : Option String
deriving Repr, DecidableEq

/-- The `items.reduce` computing the total on line 321:
`sum + Number(item.qty || 1) * Number(item.price || 0)`. -/
def lineItemsTotal (items : List Item) : Int :=
  items.foldl (fun sum i => sum + intOrElse i.qty 1 * intOrElse i.price 0) 0

/-- The `items.reduce` computing the item count on line 322:
`sum + Number(item.qty || 1)`. -/
def lineItemsCount (items : List Item) : Int :=
  items.foldl (fun sum i => sum + intOrElse i.qty 1) 0

/-- Route 13 POST /transactions: 400 when `!items || !items.length`;
otherwise resolve identity, compute total and count, take the next
sequential id, and insert.  `nowIso` and `nowDate` stand for the server
clock reads. -/
def postTransactionsRoute (req : Req) (body : TxnBody) (nowIso nowDate : String)
    (w : World) : Nat × World :=
  match body.items with
  | none => (400, w)
  | some items =>
    if items.length = 0 then (400, w)
    else
      let owner := txnCreateIdent req
      let data : TxnData :=
        ⟨getNextTransactionId w.db, owner, items, lineItemsTotal items,
         lineItemsCount items, strOrDefault body.paymentMethod "CASH",
         body.proofUploaded, normalizeStr body.proofFilename, body.location,
         strOrDefault body.timestamp nowIso, nowDate⟩
      match createTransaction data w.db with
      | .ok db1 => (200, ⟨db1, w.files⟩)
      | .error _ => (500, w)

/- ### Catch-block behavior on unexpected store failures (server.js) -/

/-- GET /products catch (lines 115-118): `res.json([])`, default status. -/
def productsListOnErr (_ : DbErr) : Nat × List Product := (200, [])

/-- GET /transactions catch (lines 286-289): `res.json([])`. -/
def transactionsListOnErr (_ : DbErr) : Nat × List Txn := (200, [])

/-- POST /products catch: `res.status(500).send('Server error')`. -/
def productCreateOnErr (_ : DbErr) : Nat × String := (500, "Server error")

/-- POST /products/:id catch: `res.status(500).send('Server error')`. -/
def productUpdateOnErr (_ : DbErr) : Nat × String := (500, "Server error")

/-- DELETE /products/:id catch: `res.status(500).json(...'Server error')`. -/
def productDeleteOnErr (_ : DbErr) : Nat × String := (500, "Server error")

/-- POST /register catch: `res.status(500).send('Server error')`. -/
def registerOnErr (_ : DbErr) : Nat × String := (500, "Server error")

/-- POST /login catch: `res.redirect('/?error=server')`. -/
def loginOnErr (_ : DbErr) : Nat × String := (302, "/?error=server")

/-- POST /transactions catch: `res.status(500).json(...'Server error')`. -/
def txnCreateOnErr (_ : DbErr) : Nat × String := (500, "Server error")

/- ### Well-formedness of stored ledgers -/

/-- A stored row deserializes without an exception. -/
def rowWellFormed (r : TxnRow) : Bool :=
  (parseTxnRow r).isSome

/-- Every stored transaction row deserializes (true of every row this
application itself writes). -/
def ledgerWellFormed (db : DB) : Bool :=
  db.transactions.all rowWellFormed

/- ### Supporting lemmas -/

theorem intOrElse_eq_getD (o : Option Int) : intOrElse o 0 = o.getD 0 := by
  cases o with
  | none => rfl
  | some v =>
    simp only [intOrElse, Option.getD_some]
    split
    · omega
    · rfl

theorem mem_le_maxTxnId : ∀ (rows : List TxnRow) (r : TxnRow), r ∈ rows →
    ∃ m, maxTxnId rows = some m ∧ r.id ≤ m := by
  intro rows
  induction rows with
  | nil => intro r h; cases h
  | cons x xs ih =>
    intro r h
    cases h with
    | head =>
      cases hx : maxTxnId xs with
      | none => exact ⟨x.id, by simp [maxTxnId, hx], le_refl _⟩
      | some m => exact ⟨max x.id m, by simp [maxTxnId, hx], le_max_left _ _⟩
    | tail _ hmem =>
      obtain ⟨m, hm, hle⟩ := ih r hmem
      exact ⟨max x.id m, by simp [maxTxnId, hm], le_trans hle (le_max_right _ _)⟩

theorem mem_id_lt_nextId (rows : List TxnRow) (r : TxnRow) (h : r ∈ rows) :
    r.id < intOrElse (maxTxnId rows) 0 + 1 := by
  obtain ⟨m, hm, hle⟩ := mem_le_maxTxnId rows r h
  rw [hm, intOrElse_eq_getD, Option.getD_some]
  omega

theorem any_id_eq_nextId (rows : List TxnRow) :
    (rows.any (fun r => r.id == intOrElse (maxTxnId rows) 0 + 1)) = false := by
  rw [Bool.eq_false_iff]
  intro h
  rw [List.any_eq_true] at h
  obtain ⟨r, hr, hid⟩ := h
  have hlt := mem_id_lt_nextId rows r hr
  rw [beq_iff_eq] at hid
  omega

theorem mem_insertByIdDesc (r a : TxnRow) (l : List TxnRow) :
    a ∈ insertByIdDesc r l ↔ a = r ∨ a ∈ l := by
  induction l with
  | nil => simp [insertByIdDesc]
  | cons x xs ih =>
    simp only [insertByIdDesc]
    split
    · simp [List.mem_cons]
    · simp [List.mem_cons, ih]
      tauto

theorem mem_sortByIdDesc (a : TxnRow) (l : List TxnRow) :
    a ∈ sortByIdDesc l ↔ a ∈ l := by
  induction l with
  | nil => simp [sortByIdDesc]
  | cons x xs ih =>
    show a ∈ insertByIdDesc x (sortByIdDesc xs) ↔ _
    rw [mem_insertByIdDesc]
    simp only [List.mem_cons, ih]

theorem optionMapM_isSome (f : α → Option β) (l : List α)
    (h : ∀ x ∈ l, (f x).isSome = true) : ∃ out, optionMapM f l = some out := by
  induction l with
  | nil => exact ⟨[], rfl⟩
  | cons x xs ih =>
    obtain ⟨y, hy⟩ := Option.isSome_iff_exists.mp (h x (List.mem_cons_self x xs))
    obtain ⟨ys, hys⟩ := ih (fun a ha => h a (List.mem_cons_of_mem x ha))
    exact ⟨y :: ys, by simp [optionMapM, hy, hys]⟩

theorem optionMapM_mem_iff (f : α → Option β) (l : List α) (out : List β)
    (h : optionMapM f l = some out) (y : β) :
    y ∈ out ↔ ∃ x, x ∈ l ∧ f x = some y := by
  induction l generalizing out with
  | nil =>
    simp only [optionMapM, Option.some_inj] at h
    subst h
    simp
  | cons a as ih =>
    simp only [optionMapM] at h
    cases hfa : f a with
    | none => rw [hfa] at h; simp at h
    | some b =>
      rw [hfa] at h
      cases hrest : optionMapM f as with
      | none => rw [hrest] at h; simp at h
      | some bs =>
        rw [hrest] at h
        simp only [Option.some_inj] at h
        subst h
        simp only [List.mem_cons]
        constructor
        · rintro (rfl | hy)
          · exact ⟨a, Or.inl rfl, hfa⟩
          · obtain ⟨x, hx, hfx⟩ := (ih bs hrest).mp hy
            exact ⟨x, Or.inr hx, hfx⟩
        · rintro ⟨x, hx | hx, hfx⟩
          · subst hx
            rw [hfa] at hfx
            exact Or.inl (Option.some_inj.mp hfx).symm
          · exact Or.inr ((ih bs hrest).mpr ⟨x, hx, hfx⟩)

theorem foldl_add_map_sum (f : Item → Int) (l : List Item) (a : Int) :
    l.foldl (fun s i => s + f i) a = a + (l.map f).sum := by
  induction l generalizing a with
  | nil => simp
  | cons x xs ih => simp [List.foldl_cons, ih, add_assoc]

theorem getProductById_id_eq (id : String) (db : DB) (p : Product)
    (h : getProductById id db = some p) : p.id = id := by
  have h' : db.products.find? (fun q => q.id == id) = some p := h
  have := List.find?_some h'
  rwa [beq_iff_eq] at this

theorem ledgerWellFormed_mem (db : DB) (h : ledgerWellFormed db = true)
    (r : TxnRow) (hr : r ∈ db.transactions) : (parseTxnRow r).isSome = true :=
  List.all_eq_true.mp h r hr

theorem txnRowsFor_mem (s : String) (hs : s ≠ "") (rows : List TxnRow) (r : TxnRow) :
    r ∈ txnRowsFor (some s) rows ↔ r ∈ rows ∧ r.owner = some s := by
  simp [txnRowsFor, hs, List.mem_filter]

theorem txnRowsFor_subset (o : Option String) (rows : List TxnRow) (r : TxnRow)
    (h : r ∈ txnRowsFor o rows) : r ∈ rows := by
  cases o with
  | none => exact h
  | some s =>
    by_cases hs : s = ""
    · simpa [txnRowsFor, hs] using h
    · exact ((txnRowsFor_mem s hs rows r).mp h).1

theorem find?_map_update (id t d pr : String) (st : Int) (im : Option String) :
    ∀ (l : List Product) (p : Product),
    l.find? (fun q => q.id == id) = some p →
    (l.map (fun q => if q.id == id then ⟨q.id, t, d, pr, st, im, q.owner⟩ else q)).find?
        (fun q => q.id == id) = some ⟨p.id, t, d, pr, st, im, p.owner⟩ := by
  intro l
  induction l with
  | nil => intro p h; simp [List.find?] at h
  | cons x xs ih =>
    intro p h
    by_cases hx : (x.id == id) = true
    · rw [@List.find?_cons_of_pos Product (fun q => q.id == id) x xs hx] at h
      rw [Option.some_inj] at h
      subst h
      simp only [List.map_cons, hx, if_pos]
      exact @List.find?_cons_of_pos Product (fun q => q.id == id) _ _ hx
    · rw [@List.find?_cons_of_neg Product (fun q => q.id == id) x xs hx] at h
      simp only [List.map_cons, if_neg hx]
      rw [@List.find?_cons_of_neg Product (fun q => q.id == id) x _ hx]
      exact ih p h

theorem getProductById_none_mem (id : String) (db : DB) (h : getProductById id db = none)
    (q : Product) (hq : q ∈ db.products) : (q.id == id) = false := by
  have h' : db.products.find? (fun q => q.id == id) = none := h
  have := List.find?_eq_none.mp h' q hq
  simpa using this

theorem map_update_noop (id t d pr : String) (st : Int) (im : Option String)
    (l : List Product) (h : ∀ q ∈ l, (q.id == id) = false) :
    l.map (fun q => if q.id == id then ⟨q.id, t, d, pr, st, im, q.owner⟩ else q) = l := by
  induction l with
  | nil => rfl
  | cons x xs ih =>
    have hx := h x (List.mem_cons_self x xs)
    simp only [List.map_cons, hx, if_neg, Bool.false_eq_true, not_false_eq_true]
    rw [ih (fun q hq => h q (List.mem_cons_of_mem x hq))]

theorem filter_delete_noop (id : String) (l : List Product)
    (h : ∀ q ∈ l, (q.id == id) = false) :
    l.filter (fun q => q.id != id) = l := by
  rw [List.filter_eq_self]
  intro a ha
  simp [bne, h a ha]

theorem getProductById_after_delete (id : String) (db : DB) :
    getProductById id ⟨db.products.filter (fun q => q.id != id), db.transactions⟩ = none := by
  show List.find? _ _ = none
  rw [List.find?_eq_none]
  intro a ha
  have := (List.mem_filter.mp ha).2
  simp only [bne_iff_ne, ne_eq] at this
  simp [this]

/- ### Claim theorems -/

/-- A bare stored transaction row with a given id. -/
def blankRow (k : Int) : TxnRow :=
  ⟨k, none, "[]", 0, 0, "CASH", 0, none, none, "", ""⟩

/-- A ledger holding transactions with ids 1..n. -/
def seqLedger : Nat → List TxnRow
  | 0 => []
  | n + 1 => blankRow (n + 1) :: seqLedger n

theorem maxTxnId_seqLedger_succ (n : Nat) :
    maxTxnId (seqLedger (n + 1)) = some ((n : Int) + 1) := by
  induction n with
  | zero => norm_num [seqLedger, maxTxnId, blankRow]
  | succ m ih =>
    show maxTxnId (blankRow (m + 1 + 1) :: seqLedger (m + 1)) = _
    rw [maxTxnId, ih]
    simp only [blankRow]
    rw [max_eq_left (by omega)]
    push_cast
    ring_nf

/-- C2: `getNextTransactionId` returns (maximum existing transaction id,
or 0 if the ledger is empty) + 1; on an empty ledger it returns 1, and
with transactions 1..n present it returns n+1. -/
theorem nextTransactionId_spec :
    (∀ db : DB, getNextTransactionId db = (maxTxnId db.transactions).getD 0 + 1)
    ∧ (∀ ps : List Product, getNextTransactionId ⟨ps, []⟩ = 1)
    ∧ (∀ (ps : List Product) (n : Nat), getNextTransactionId ⟨ps, seqLedger n⟩ = n + 1) := by
  refine ⟨fun db => ?_, fun ps => rfl, fun ps n => ?_⟩
  · rw [getNextTransactionId, intOrElse_eq_getD]
  · cases n with
    | zero => rfl
    | succ m =>
      show intOrElse (maxTxnId (seqLedger (m + 1))) 0 + 1 = _
      rw [maxTxnId_seqLedger_succ, intOrElse_eq_getD, Option.getD_some]
      push_cast
      ring_nf

/-- C4 counterexample: an empty-string owner filter is falsy, so
`getAllProducts("")` returns every record, including one whose stored
owner ("alice") does not equal the filter string. -/
theorem ownerFilter_counterexample :
    getAllProducts (some "") ⟨[⟨"p1", "t", "d", "9", 1, none, some "alice"⟩], []⟩
      = [⟨"p1", "t", "d", "9", 1, none, some "alice"⟩]
    ∧ (some "alice" : Option String) ≠ some "" :=
  ⟨rfl, by decide⟩

/-- C4 amended: for every NON-EMPTY owner filter string, listing
products or transactions returns exactly the records whose stored owner
equals the filter string character for character; listing with an
empty-string filter, like listing without a filter, returns all
records. -/
theorem ownerFilter_exact (s : String) (hs : s ≠ "") (db : DB) :
    (∀ p : Product, p ∈ getAllProducts (some s) db ↔ p ∈ db.products ∧ p.owner = some s)
    ∧ getAllProducts none db = db.products
    ∧ getAllProducts (some "") db = db.products
    ∧ (ledgerWellFormed db = true →
        ∃ l, getAllTransactions (some s) db = some l
          ∧ ∀ t : Txn, t ∈ l ↔ ∃ r : TxnRow, r ∈ db.transactions ∧ r.owner = some s
              ∧ parseTxnRow r = some t)
    ∧ (ledgerWellFormed db = true →
        ∃ l, getAllTransactions none db = some l
          ∧ ∀ t : Txn, t ∈ l ↔ ∃ r : TxnRow, r ∈ db.transactions ∧ parseTxnRow r = some t) := by
  refine ⟨?_, rfl, rfl, ?_, ?_⟩
  · intro p
    simp [getAllProducts, hs, List.mem_filter]
  · intro hwf
    have hall : ∀ r ∈ sortByIdDesc (txnRowsFor (some s) db.transactions),
        (parseTxnRow r).isSome = true := by
      intro r hr
      exact ledgerWellFormed_mem db hwf r (txnRowsFor_subset _ _ _ ((mem_sortByIdDesc r _).mp hr))
    obtain ⟨l, hl⟩ := optionMapM_isSome parseTxnRow _ hall
    refine ⟨l, hl, fun t => ?_⟩
    rw [optionMapM_mem_iff parseTxnRow _ l hl t]
    constructor
    · rintro ⟨x, hx, hfx⟩
      have hm := (txnRowsFor_mem s hs _ x).mp ((mem_sortByIdDesc x _).mp hx)
      exact ⟨x, hm.1, hm.2, hfx⟩
    · rintro ⟨r, hr, hro, hfr⟩
      exact ⟨r, (mem_sortByIdDesc r _).mpr ((txnRowsFor_mem s hs _ r).mpr ⟨hr, hro⟩), hfr⟩
  · intro hwf
    have hall : ∀ r ∈ sortByIdDesc (txnRowsFor none db.transactions),
        (parseTxnRow r).isSome = true := by
      intro r hr
      exact ledgerWellFormed_mem db hwf r (txnRowsFor_subset _ _ _ ((mem_sortByIdDesc r _).mp hr))
    obtain ⟨l, hl⟩ := optionMapM_isSome parseTxnRow _ hall
    refine ⟨l, hl, fun t => ?_⟩
    rw [optionMapM_mem_iff parseTxnRow _ l hl t]
    constructor
    · rintro ⟨x, hx, hfx⟩
      exact ⟨x, (mem_sortByIdDesc x _).mp hx, hfx⟩
    · rintro ⟨r, hr, hfr⟩
      exact ⟨r, (mem_sortByIdDesc r _).mpr hr, hfr⟩

/-- C4 witness: with filter "alice", a product owned by "alice" is
listed. -/
theorem ownerFilter_exact_witness :
    (⟨"p1", "t", "d", "9", 1, none, some "alice"⟩ : Product) ∈
      getAllProducts (some "alice") ⟨[⟨"p1", "t", "d", "9", 1, none, some "alice"⟩], []⟩ :=
  ((ownerFilter_exact "alice" (by decide) _).1 _).mpr ⟨by simp, rfl⟩

/-- C6 counterexample: a present-but-empty `username` query parameter is
skipped (JS truthiness), so the header wins although the query parameter
is present. -/
theorem identityPrecedence_counterexample :
    productsListIdent ⟨some "", some "bob", none⟩ = some "bob"
    ∧ (some "bob" : Option String) ≠ some "" :=
  ⟨rfl, by decide⟩

/-- C6 amended: the resolved acting username is the query parameter if
non-empty, otherwise the header if non-empty, otherwise the cookie value
if non-empty, otherwise absent; and all five identity-consuming routes
(product listing, product creation, product deletion, transaction
listing, transaction creation) use this same resolution rule. -/
theorem identityResolution_same_rule (r : Req) :
    productsListIdent r = resolveUsername r.queryUsername r.headerUsername r.cookieUsername
    ∧ productCreateIdent r = resolveUsername r.queryUsername r.headerUsername r.cookieUsername
    ∧ productDeleteIdent r = resolveUsername r.queryUsername r.headerUsername r.cookieUsername
    ∧ txnListIdent r = resolveUsername r.queryUsername r.headerUsername r.cookieUsername
    ∧ txnCreateIdent r = resolveUsername r.queryUsername r.headerUsername r.cookieUsername
    ∧ (strTruthy r.queryUsername = true →
        resolveUsername r.queryUsername r.headerUsername r.cookieUsername = r.queryUsername)
    ∧ (strTruthy r.queryUsername = false → strTruthy r.headerUsername = true →
        resolveUsername r.queryUsername r.headerUsername r.cookieUsername = r.headerUsername)
    ∧ (strTruthy r.queryUsername = false → strTruthy r.headerUsername = false →
        strTruthy r.cookieUsername = true →
        resolveUsername r.queryUsername r.headerUsername r.cookieUsername = r.cookieUsername)
    ∧ (strTruthy r.queryUsername = false → strTruthy r.headerUsername = false →
        strTruthy r.cookieUsername = false →
        resolveUsername r.queryUsername r.headerUsername r.cookieUsername = none) := by
  refine ⟨rfl, rfl, rfl, rfl, rfl, ?_, ?_, ?_, ?_⟩
  · intro h1
    simp [resolveUsername, strOrElse, h1]
  · intro h1 h2
    simp [resolveUsername, strOrElse, h1, h2]
  · intro h1 h2 h3
    simp [resolveUsername, strOrElse, h1, h2, h3]
  · intro h1 h2 h3
    simp [resolveUsername, strOrElse, h1, h2, h3]

/-- C6 witness: a non-empty query parameter wins over a non-empty header
and cookie. -/
theorem identityResolution_same_rule_witness :
    resolveUsername (some "alice") (some "bob") (some "carol") = some "alice" :=
  (identityResolution_same_rule ⟨some "alice", some "bob", some "carol"⟩).2.2.2.2.2.1 rfl

/-- C7 counterexample: when the product listing's store call fails, the
catch block responds `res.json([])` — HTTP 200 with an empty array, not
a 500 error. -/
theorem errorSurfacing_counterexample :
    productsListOnErr .sqlFailure = (200, [])
    ∧ transactionsListOnErr .sqlFailure = (200, [])
    ∧ (200 : Nat) ≠ 500 :=
  ⟨rfl, rfl, by decide⟩

/-- C7 amended: unexpected store failures never leak detail (each catch
response is independent of the error), but only the mutating routes and
register surface them as generic 500; the two list routes respond 200
with an empty array, and login redirects to an error page. -/
theorem errorSurfacing_by_route (e e' : DbErr) :
    productsListOnErr e = (200, [])
    ∧ transactionsListOnErr e = (200, [])
    ∧ loginOnErr e = (302, "/?error=server")
    ∧ productCreateOnErr e = (500, "Server error")
    ∧ productUpdateOnErr e = (500, "Server error")
    ∧ productDeleteOnErr e = (500, "Server error")
    ∧ registerOnErr e = (500, "Server error")
    ∧ txnCreateOnErr e = (500, "Server error")
    ∧ productsListOnErr e = productsListOnErr e'
    ∧ transactionsListOnErr e = transactionsListOnErr e'
    ∧ loginOnErr e = loginOnErr e'
    ∧ productCreateOnErr e = productCreateOnErr e'
    ∧ productUpdateOnErr e = productUpdateOnErr e'
    ∧ productDeleteOnErr e = productDeleteOnErr e'
    ∧ registerOnErr e = registerOnErr e'
    ∧ txnCreateOnErr e = txnCreateOnErr e' :=
  ⟨rfl, rfl, rfl, rfl, rfl, rfl, rfl, rfl, rfl, rfl, rfl, rfl, rfl, rfl, rfl, rfl⟩

/-- C8 counterexample: the store operations on an absent id resolve
successfully as no-ops — `UPDATE`/`DELETE ... WHERE id = ?` with no
matching row is not an error — rather than failing with NotFoundError. -/
theorem storeNotFound_counterexample :
    updateProduct "p1" "t" "d" "9" 1 none ⟨[], []⟩ = .ok ⟨[], []⟩
    ∧ deleteProduct "p1" ⟨[], []⟩ = .ok ⟨[], []⟩ :=
  ⟨rfl, rfl⟩

/-- C8 amended: for every id with no stored product, the HTTP update and
delete routes respond 404 (via the `getById` precheck) and leave state
unchanged, while the store operations themselves succeed as no-ops. -/
theorem notFound_handling (w : World) (id : String) (ureq : UpdateReq) (dreq : Req)
    (t d pr : String) (st : Int) (im : Option String)
    (h : getProductById id w.db = none) :
    updateProductRoute ureq id w = (404, w)
    ∧ deleteProductRoute dreq id w = (404, w)
    ∧ updateProduct id t d pr st im w.db = .ok w.db
    ∧ deleteProduct id w.db = .ok w.db := by
  refine ⟨?_, ?_, ?_, ?_⟩
  · simp [updateProductRoute, h]
  · simp [deleteProductRoute, h]
  · show Except.ok _ = _
    rw [map_update_noop id t d pr st im w.db.products (getProductById_none_mem id w.db h)]
  · show Except.ok _ = _
    rw [filter_delete_noop id w.db.products (getProductById_none_mem id w.db h)]

/-- C8 witness: deleting a missing product id over an empty catalog
responds 404 at the HTTP surface. -/
theorem notFound_handling_witness :
    deleteProductRoute ⟨none, none, none⟩ "p1" ⟨⟨[], []⟩, []⟩ = (404, ⟨⟨[], []⟩, []⟩) :=
  (notFound_handling ⟨⟨[], []⟩, []⟩ "p1" ⟨none, none, none, none, none⟩ ⟨none, none, none⟩
    "t" "d" "9" 1 none rfl).2.1

/-- C9: a POST /transactions whose items field is missing or an empty
list fails with 400, the state is unchanged, and no transaction id is
consumed. -/
theorem txnValidation_400 (req : Req) (body : TxnBody) (nowIso nowDate : String) (w : World)
    (h : body.items = none ∨ body.items = some []) :
    postTransactionsRoute req body nowIso nowDate w = (400, w)
    ∧ getNextTransactionId (postTransactionsRoute req body nowIso nowDate w).2.db
        = getNextTransactionId w.db := by
  have h400 : postTransactionsRoute req body nowIso nowDate w = (400, w) := by
    rcases h with h | h <;> simp [postTransactionsRoute, h]
  exact ⟨h400, by rw [h400]⟩

/-- C9 witness: an empty items list is rejected with 400 on an empty
world. -/
theorem txnValidation_400_witness :
    postTransactionsRoute ⟨none, none, none⟩ ⟨some [], none, false, none, none, none⟩ "T" "D"
      ⟨⟨[], []⟩, []⟩ = (400, ⟨⟨[], []⟩, []⟩) :=
  (txnValidation_400 _ _ _ _ _ (Or.inr rfl)).1

/-- The authorization rule the delete route actually implements: the
delete is allowed when the stored owner is null or the empty string
(falsy), or when the owner equals `String(resolved identity)` — which is
the literal string "null" when the identity is absent. -/
def deleteAllowedSpec (owner ident : Option String) : Prop :=
  owner = none ∨ owner = some "" ∨ owner = some (jsString ident)

theorem deleteCond_eq_false_iff (owner ident : Option String) :
    (strTruthy owner && (jsString owner != jsString ident)) = false
      ↔ deleteAllowedSpec owner ident := by
  cases owner with
  | none => simp [strTruthy, deleteAllowedSpec]
  | some s =>
    by_cases hs : s = ""
    · subst hs
      simp [strTruthy, deleteAllowedSpec]
    · simp [strTruthy, deleteAllowedSpec, hs, jsString]

/-- C1 counterexample: a stored product with the non-null owner string
"null" is deleted (HTTP 200, record and image gone) by a request whose
resolved identity is absent, because `String(null) === "null"`; the
claim requires 403 with the state unchanged. -/
theorem deleteAuth_counterexample :
    (getProductById "p1" ⟨[⟨"p1", "t", "d", "9", 1, some "i.png", some "null"⟩], []⟩).map
        (fun p => p.owner) = some (some "null")
    ∧ productDeleteIdent ⟨none, none, none⟩ = none
    ∧ deleteProductRoute ⟨none, none, none⟩ "p1"
        ⟨⟨[⟨"p1", "t", "d", "9", 1, some "i.png", some "null"⟩], []⟩, ["i.png"]⟩
      = (200, ⟨⟨[], []⟩, []⟩) :=
  ⟨rfl, rfl, rfl⟩

/-- C1 amended: a DELETE on a stored product succeeds exactly when the
owner is null or empty, or equals `String(resolved identity)` (the
string "null" for an absent identity); otherwise it fails 403 and
leaves the world — record, ledger and files — unchanged. -/
theorem deleteAuth (w : World) (req : Req) (id : String) (p : Product)
    (hp : getProductById id w.db = some p) :
    (deleteAllowedSpec p.owner (productDeleteIdent req) →
      deleteProductRoute req id w
        = (200, ⟨⟨w.db.products.filter (fun q => q.id != id), w.db.transactions⟩,
                 removeImage p.image w.files⟩)
      ∧ getProductById id (deleteProductRoute req id w).2.db = none)
    ∧ (¬ deleteAllowedSpec p.owner (productDeleteIdent req) →
      deleteProductRoute req id w = (403, w)) := by
  constructor
  · intro hall
    have hc : (strTruthy p.owner && (jsString p.owner != jsString (productDeleteIdent req)))
        = false := (deleteCond_eq_false_iff _ _).mpr hall
    have heq : deleteProductRoute req id w
        = (200, ⟨⟨w.db.products.filter (fun q => q.id != id), w.db.transactions⟩,
                 removeImage p.image w.files⟩) := by
      simp [deleteProductRoute, hp, hc, deleteProduct]
    refine ⟨heq, ?_⟩
    rw [heq]
    exact getProductById_after_delete id w.db
  · intro hnall
    have hc : (strTruthy p.owner && (jsString p.owner != jsString (productDeleteIdent req)))
        = true := by
      cases hb : (strTruthy p.owner && (jsString p.owner != jsString (productDeleteIdent req))) with
      | false => exact absurd ((deleteCond_eq_false_iff _ _).mp hb) hnall
      | true => rfl
    simp [deleteProductRoute, hp, hc]

/-- C1 witness: a product with null owner is deleted by an anonymous
request. -/
theorem deleteAuth_witness :
    deleteProductRoute ⟨none, none, none⟩ "p1"
        ⟨⟨[⟨"p1", "t", "d", "9", 1, none, none⟩], []⟩, []⟩
      = (200, ⟨⟨[], []⟩, []⟩) :=
  ((deleteAuth ⟨⟨[⟨"p1", "t", "d", "9", 1, none, none⟩], []⟩, []⟩ ⟨none, none, none⟩ "p1"
      ⟨"p1", "t", "d", "9", 1, none, none⟩ rfl).1 (Or.inl rfl)).1

/-- C5: updating an existing product merges each request field with the
stored record — every absent field retains its prior stored value — and
in particular a stock-only update changes only the stock. -/
theorem updateFrame (w : World) (id : String) (p : Product) (req : UpdateReq)
    (hp : getProductById id w.db = some p) :
    ∃ w1, updateProductRoute req id w = (302, w1)
      ∧ getProductById id w1.db
          = some ⟨p.id, req.title.getD p.title, req.description.getD p.description,
                  req.price.getD p.price, req.stock.getD p.stock,
                  (match req.file with | some f => some f | none => p.image), p.owner⟩
      ∧ w1.db.transactions = w.db.transactions
      ∧ (req.file = none → w1.files = w.files)
      ∧ (req.title = none ∧ req.description = none ∧ req.price = none ∧ req.file = none →
          getProductById id w1.db
            = some ⟨p.id, p.title, p.description, p.price, req.stock.getD p.stock,
                    p.image, p.owner⟩) := by
  cases hf : req.file with
  | none =>
    have hfind := find?_map_update id (req.title.getD p.title) (req.description.getD p.description)
      (req.price.getD p.price) (req.stock.getD p.stock) p.image w.db.products p hp
    have heq : updateProductRoute req id w
        = (302, ⟨⟨w.db.products.map (fun q => if q.id == id then
              ⟨q.id, req.title.getD p.title, req.description.getD p.description,
               req.price.getD p.price, req.stock.getD p.stock, p.image, q.owner⟩ else q),
            w.db.transactions⟩, w.files⟩) := by
      simp [updateProductRoute, hp, updateProduct, hf]
    refine ⟨_, heq, hfind, rfl, fun _ => rfl, ?_⟩
    rintro ⟨h1, h2, h3, _⟩
    simp only [h1, h2, h3, Option.getD_none] at hfind ⊢
    exact hfind
  | some f =>
    have hfind := find?_map_update id (req.title.getD p.title) (req.description.getD p.description)
      (req.price.getD p.price) (req.stock.getD p.stock) (some f) w.db.products p hp
    have heq : updateProductRoute req id w
        = (302, ⟨⟨w.db.products.map (fun q => if q.id == id then
              ⟨q.id, req.title.getD p.title, req.description.getD p.description,
               req.price.getD p.price, req.stock.getD p.stock, some f, q.owner⟩ else q),
            w.db.transactions⟩, removeImage p.image w.files⟩) := by
      simp [updateProductRoute, hp, updateProduct, hf]
    refine ⟨_, heq, hfind, rfl, ?_, ?_⟩
    · intro hcontra
      exact Option.noConfusion hcontra
    · rintro ⟨_, _, _, hcontra⟩
      exact Option.noConfusion hcontra

theorem createTransaction_fresh (t : TxnData) (db : DB) (ht : t.id = getNextTransactionId db) :
    createTransaction t db = .ok ⟨db.products, db.transactions ++
      [⟨t.id, t.owner, stringifyItems t.items, t.total, t.itemCount, t.paymentMethod,
        if t.proofUploaded then 1 else 0, t.proofFilename, t.location.map stringifyGeo,
        t.timestamp, t.date⟩]⟩ := by
  have hfresh : (db.transactions.any (fun r => r.id == t.id)) = false := by
    rw [ht]
    exact any_id_eq_nextId db.transactions
  simp [createTransaction, hfresh]

/-- C10 counterexample: a line item with qty 0 — present, not lacking —
is still counted with qty 1 (`item.qty || 1` treats 0 as falsy), so the
handler's total and item count differ from the claimed sums over
(qty if present else 1) × (price if present else 0). -/
theorem lineItemDefaults_counterexample :
    lineItemsTotal [⟨some 5, some 0⟩] = 5
    ∧ lineItemsCount [⟨some 5, some 0⟩] = 1
    ∧ (([⟨some 5, some 0⟩] : List Item).map (fun i => i.qty.getD 1 * i.price.getD 0)).sum = 0
    ∧ (([⟨some 5, some 0⟩] : List Item).map (fun i => i.qty.getD 1)).sum = 0
    ∧ lineItemsTotal [⟨some 5, some 0⟩]
        ≠ (([⟨some 5, some 0⟩] : List Item).map (fun i => i.qty.getD 1 * i.price.getD 0)).sum := by
  refine ⟨rfl, rfl, rfl, rfl, ?_⟩
  decide

/-- C10 amended: for every non-empty items list, POST /transactions
stores total = Σ (qty if present and non-zero, else 1) × (price if
present, else 0) and itemCount = Σ (qty if present and non-zero,
else 1). -/
theorem lineItemDefaults (items : List Item) (req : Req) (pm : Option String) (pu : Bool)
    (pf : Option String) (loc : Option GeoPoint) (ts : Option String)
    (nowIso nowDate : String) (w : World) (h : items ≠ []) :
    lineItemsTotal items = (items.map (fun i => intOrElse i.qty 1 * intOrElse i.price 0)).sum
    ∧ lineItemsCount items = (items.map (fun i => intOrElse i.qty 1)).sum
    ∧ postTransactionsRoute req ⟨some items, pm, pu, pf, loc, ts⟩ nowIso nowDate w
        = (200, ⟨⟨w.db.products, w.db.transactions ++
            [⟨getNextTransactionId w.db, txnCreateIdent req, stringifyItems items,
              lineItemsTotal items, lineItemsCount items,
              strOrDefault pm "CASH", if pu then 1 else 0, normalizeStr pf,
              loc.map stringifyGeo, strOrDefault ts nowIso, nowDate⟩]⟩, w.files⟩) := by
  have ht : lineItemsTotal items
      = (items.map (fun i => intOrElse i.qty 1 * intOrElse i.price 0)).sum := by
    show items.foldl _ 0 = _
    rw [foldl_add_map_sum (fun i => intOrElse i.qty 1 * intOrElse i.price 0) items 0, zero_add]
  have hc : lineItemsCount items = (items.map (fun i => intOrElse i.qty 1)).sum := by
    show items.foldl _ 0 = _
    rw [foldl_add_map_sum (fun i => intOrElse i.qty 1) items 0, zero_add]
  have hlen : ¬ items.length = 0 := by simpa [List.length_eq_zero] using h
  have hct := createTransaction_fresh
    ⟨getNextTransactionId w.db, txnCreateIdent req, items, lineItemsTotal items,
     lineItemsCount items, strOrDefault pm "CASH", pu, normalizeStr pf, loc,
     strOrDefault ts nowIso, nowDate⟩ w.db rfl
  refine ⟨ht, hc, ?_⟩
  simp [postTransactionsRoute, hlen, hct]

/-- C10 witness: a singleton list with price 5 and qty 0 is stored with
total 5 and itemCount 1. -/
theorem lineItemDefaults_witness :
    postTransactionsRoute ⟨none, none, none⟩
        ⟨some [⟨some 5, some 0⟩], none, false, none, none, none⟩ "T" "D" ⟨⟨[], []⟩, []⟩
      = (200, ⟨⟨[], [⟨1, none, stringifyItems [⟨some 5, some 0⟩], 5, 1, "CASH", 0, none,
                      none, "T", "D"⟩]⟩, []⟩) :=
  (lineItemDefaults [⟨some 5, some 0⟩] ⟨none, none, none⟩ none false none none none
    "T" "D" ⟨⟨[], []⟩, []⟩ (by simp)).2.2

/-- C3: a transaction POSTed with items [(price 10, qty 2), (price 5,
qty 1)] is retrievable from the ledger with total 25 and itemCount 3,
its items and location deserialized back to structured values and
proofUploaded returned as a boolean. -/
theorem transactionRoundTrip (w : World) (req : Req) (nowIso nowDate : String)
    (hwf : ledgerWellFormed w.db = true) :
    ∃ db1 l,
      postTransactionsRoute req
          ⟨some [⟨some 10, some 2⟩, ⟨some 5, some 1⟩], none, false, none, none, none⟩
          nowIso nowDate w = (200, ⟨db1, w.files⟩)
      ∧ getTransactionsRoute ⟨none, none, none⟩ ⟨db1, w.files⟩ = some (200, l)
      ∧ (⟨getNextTransactionId w.db, txnCreateIdent req,
          [⟨some 10, some 2⟩, ⟨some 5, some 1⟩], 25, 3, "CASH", false, none, none,
          nowIso, nowDate⟩ : Txn) ∈ l := by
  have hct := createTransaction_fresh
    ⟨getNextTransactionId w.db, txnCreateIdent req, [⟨some 10, some 2⟩, ⟨some 5, some 1⟩],
     25, 3, "CASH", false, none, none, nowIso, nowDate⟩ w.db rfl
  have h25 : lineItemsTotal [⟨some 10, some 2⟩, ⟨some 5, some 1⟩] = 25 := by decide
  have h3 : lineItemsCount [⟨some 10, some 2⟩, ⟨some 5, some 1⟩] = 3 := by decide
  have hroute : postTransactionsRoute req
      ⟨some [⟨some 10, some 2⟩, ⟨some 5, some 1⟩], none, false, none, none, none⟩
      nowIso nowDate w
      = (200, ⟨⟨w.db.products, w.db.transactions ++
          [⟨getNextTransactionId w.db, txnCreateIdent req,
            stringifyItems [⟨some 10, some 2⟩, ⟨some 5, some 1⟩], 25, 3, "CASH", 0,
            none, none, nowIso, nowDate⟩]⟩, w.files⟩) := by
    simp [postTransactionsRoute, h25, h3, strOrDefault, normalizeStr, strTruthy, hct]
  have hpi : parseItems (stringifyItems [⟨some 10, some 2⟩, ⟨some 5, some 1⟩])
      = some [⟨some 10, some 2⟩, ⟨some 5, some 1⟩] := by decide
  have hparse : parseTxnRow
      ⟨getNextTransactionId w.db, txnCreateIdent req,
        stringifyItems [⟨some 10, some 2⟩, ⟨some 5, some 1⟩], 25, 3, "CASH", 0,
        none, none, nowIso, nowDate⟩
      = some ⟨getNextTransactionId w.db, txnCreateIdent req,
          [⟨some 10, some 2⟩, ⟨some 5, some 1⟩], 25, 3, "CASH", false, none, none,
          nowIso, nowDate⟩ := by
    simp [parseTxnRow, hpi]
  have hall : ∀ r ∈ sortByIdDesc (txnRowsFor none (w.db.transactions ++
      [⟨getNextTransactionId w.db, txnCreateIdent req,
        stringifyItems [⟨some 10, some 2⟩, ⟨some 5, some 1⟩], 25, 3, "CASH", 0,
        none, none, nowIso, nowDate⟩])), (parseTxnRow r).isSome = true := by
    intro r hr
    have hr' := (mem_sortByIdDesc r _).mp hr
    rcases List.mem_append.mp hr' with h1 | h2
    · exact ledgerWellFormed_mem w.db hwf r h1
    · have hrow : r = ⟨getNextTransactionId w.db, txnCreateIdent req,
          stringifyItems [⟨some 10, some 2⟩, ⟨some 5, some 1⟩], 25, 3, "CASH", 0,
          none, none, nowIso, nowDate⟩ := by simpa using h2
      rw [hrow, hparse]
      rfl
  obtain ⟨l, hl⟩ := optionMapM_isSome parseTxnRow _ hall
  refine ⟨⟨w.db.products, w.db.transactions ++
      [⟨getNextTransactionId w.db, txnCreateIdent req,
        stringifyItems [⟨some 10, some 2⟩, ⟨some 5, some 1⟩], 25, 3, "CASH", 0,
        none, none, nowIso, nowDate⟩]⟩, l, hroute, ?_, ?_⟩
  · have hl' : getAllTransactions none ⟨w.db.products, w.db.transactions ++
        [⟨getNextTransactionId w.db, txnCreateIdent req,
          stringifyItems [⟨some 10, some 2⟩, ⟨some 5, some 1⟩], 25, 3, "CASH", 0,
          none, none, nowIso, nowDate⟩]⟩ = some l := hl
    show (getAllTransactions none _).map _ = _
    rw [hl']
    rfl
  · refine (optionMapM_mem_iff parseTxnRow _ l hl _).mpr
      ⟨⟨getNextTransactionId w.db, txnCreateIdent req,
        stringifyItems [⟨some 10, some 2⟩, ⟨some 5, some 1⟩], 25, 3, "CASH", 0,
        none, none, nowIso, nowDate⟩, ?_, hparse⟩
    exact (mem_sortByIdDesc _ _).mpr (List.mem_append_right _ (by simp))

/-- C3 witness: the round trip on an empty ledger. -/
theorem transactionRoundTrip_witness :
    ledgerWellFormed ⟨[], []⟩ = true
    ∧ ∃ db1 l,
        postTransactionsRoute ⟨none, none, none⟩
            ⟨some [⟨some 10, some 2⟩, ⟨some 5, some 1⟩], none, false, none, none, none⟩
            "T" "D" ⟨⟨[], []⟩, []⟩ = (200, ⟨db1, []⟩)
        ∧ getTransactionsRoute ⟨none, none, none⟩ ⟨db1, []⟩ = some (200, l)
        ∧ (⟨getNextTransactionId ⟨[], []⟩, txnCreateIdent ⟨none, none, none⟩,
            [⟨some 10, some 2⟩, ⟨some 5, some 1⟩], 25, 3, "CASH", false, none, none,
            "T", "D"⟩ : Txn) ∈ l :=
  ⟨rfl, transactionRoundTrip ⟨⟨[], []⟩, []⟩ ⟨none, none, none⟩ "T" "D" rfl⟩

/-- C5 witness: a stock-only update leaves title, description, price and
image unchanged and sets the new stock. -/
theorem updateFrame_witness :
    ∃ w1, updateProductRoute ⟨none, none, none, some 5, none⟩ "p1"
        ⟨⟨[⟨"p1", "T", "D", "9", 1, some "i.png", some "alice"⟩], []⟩, ["i.png"]⟩ = (302, w1)
      ∧ getProductById "p1" w1.db
          = some ⟨"p1", "T", "D", "9", 5, some "i.png", some "alice"⟩ := by
  obtain ⟨w1, h1, h2, _⟩ := updateFrame
    ⟨⟨[⟨"p1", "T", "D", "9", 1, some "i.png", some "alice"⟩], []⟩, ["i.png"]⟩ "p1"
    ⟨"p1", "T", "D", "9", 1, some "i.png", some "alice"⟩ ⟨none, none, none, some 5, none⟩ rfl
  exact ⟨w1, h1, h2⟩

end RPos
